import Mathlib

/-!
Shallow embedding of `src/src/app/page.tsx` of the ruang-iklim-scada
dashboard.  The file holds two variants of the dashboard page: an earlier
variant (bulk load with `limit(300)`, setpoint save without any alert) and
the main demo-capable variant (`DEMO_MODE` flag, bulk load with
`limit(500)`, realtime INSERT subscription, setpoint save with an alert on
failure).  Both variants are embedded; definitions carrying a `V1` suffix
come from the earlier variant.

Modelling conventions:
* absolute instants (`new Date(...).getTime()`) are modelled as `Nat`
  epoch milliseconds; the ISO timestamp string and the machine instant are
  collapsed into this one number;
* the timezone formatter `toWIB` delegates to the host
  (`Date.toLocaleTimeString`), an external collaborator, so it is passed in
  as an abstract function parameter `Nat → String`;
* `Math.random()` draws are passed in explicitly as rationals in `[0, 1)`;
* JS numbers carried by readings and setpoints are modelled as `ℚ`;
* nullable DB columns (`number | null`) are `Option ℚ`;
* React state updates become explicit state passing on `DashState`.
-/

/-- One row of the `sensor_logs` table (TS type `SensorRow`); the four
measurements are nullable, `timestamp_wib` is the optional derived display
string. -/
structure SensorRow where
  id : Int
  timestamp : Nat
  suhu : Option ℚ
  kelembapan : Option ℚ
  cahaya : Option ℚ
  suara : Option ℚ
  timestamp_wib : Option String
deriving Repr, DecidableEq

/-- One row of the `setpoint` table (TS type `SetpointRow`); each target
column is nullable. -/
structure SetpointRow where
  id : Int
  suhu_target : Option ℚ
  kelembapan_target : Option ℚ
  cahaya_target : Option ℚ
  suara_target : Option ℚ
deriving Repr, DecidableEq

/-- The in-memory quadruple of targets, the shape of both the `setpoint`
and the `demoBase` React state objects. -/
structure Targets where
  suhu : ℚ
  kelembapan : ℚ
  cahaya : ℚ
  suara : ℚ
deriving Repr, DecidableEq

/-- One `Math.random()` draw per measurement, used by a single
`generateDemoData` call. -/
structure RandQuad where
  suhu : ℚ
  kelembapan : ℚ
  cahaya : ℚ
  suara : ℚ
deriving Repr, DecidableEq

/-- The compile-time feed-mode flag: `const DEMO_MODE = false` in the main
variant of the source. -/
def DEMO_MODE : Bool := false

/-- JS `x?.id || d` on an optional integer: `undefined` and the falsy
number `0` both fall through to the default. -/
def jsOrInt (x : Option Int) (d : Int) : Int :=
  match x with
  | none => d
  | some v => if v = 0 then d else v

/-- The `noise` helper inside `generateDemoData`:
`Math.random() * range * 2 - range`, with the random draw `r` made
explicit. -/
def noise (r range : ℚ) : ℚ := r * range * 2 - range

/-- `generateDemoData(base, last?)` from the main variant: one synthetic
reading near the baseline, with id `(last?.id || 0) + 1` and the current
instant as both raw and formatted timestamp.  `now` stands for the single
current instant and `rnd` for the four `Math.random()` draws. -/
def generateDemoData (toWIB : Nat → String) (now : Nat) (rnd : RandQuad)
    (base : Targets) (last : Option SensorRow) : SensorRow :=
  { id := jsOrInt (last.map (·.id)) 0 + 1
    timestamp := now
    timestamp_wib := some (toWIB now)
    suhu := some (base.suhu + noise rnd.suhu 0.3)
    kelembapan := some (base.kelembapan + noise rnd.kelembapan 1)
    cahaya := some (base.cahaya + noise rnd.cahaya 5)
    suara := some (base.suara + noise rnd.suara 2) }

/-- One tick of the DEMO-mode interval callback: read the last element of
`prev`, generate the next reading, trim `prev` to its last 499 elements
when `prev.length >= 500` (JS `prev.slice(prev.length - 499)`), and append
the new reading. -/
def demoTick (toWIB : Nat → String) (now : Nat) (rnd : RandQuad)
    (base : Targets) (prev : List SensorRow) : List SensorRow :=
  let last := prev.getLast?
  let next := generateDemoData toWIB now rnd base last
  let trimmed := if 500 ≤ prev.length then prev.drop (prev.length - 499) else prev
  trimmed ++ [next]

/-- Buffer contents after `n` DEMO-mode ticks starting from the empty
buffer; `env i` supplies the instant and the random draws of tick `i`. -/
def runDemo (toWIB : Nat → String) (env : Nat → Nat × RandQuad)
    (base : Targets) : Nat → List SensorRow
  | 0 => []
  | n + 1 => demoTick toWIB (env n).1 (env n).2 base (runDemo toWIB env base n)

/-- The reading generated at tick `n` of a DEMO-mode run. -/
def demoSample (toWIB : Nat → String) (env : Nat → Nat × RandQuad)
    (base : Targets) (n : Nat) : SensorRow :=
  generateDemoData toWIB (env n).1 (env n).2 base
    ((runDemo toWIB env base n).getLast?)

/-- All readings generated during the first `n` ticks of a DEMO-mode run,
in generation order. -/
def demoHistory (toWIB : Nat → String) (env : Nat → Nat × RandQuad)
    (base : Targets) (n : Nat) : List SensorRow :=
  (List.range n).map (demoSample toWIB env base)

/-- Attachment of the formatted display timestamp to a row:
`{ ...row, timestamp_wib: toWIB(row.timestamp) }`, also performed by the
INSERT handler through in-place assignment. -/
def withWIBRow (toWIB : Nat → String) (r : SensorRow) : SensorRow :=
  { r with timestamp_wib := some (toWIB r.timestamp) }

/-- The realtime INSERT handler of the main variant: attach
`timestamp_wib` to the pushed row, append it (`[...prev, r]`), and if the
result is longer than 1000 drop the front element (`updated.shift()`). -/
def insertHandler (toWIB : Nat → String) (prev : List SensorRow)
    (r : SensorRow) : List SensorRow :=
  let r2 := withWIBRow toWIB r
  let updated := prev ++ [r2]
  if updated.length > 1000 then updated.tail else updated

/-- The row limit of `fetchInitial` in the main variant: `.limit(500)`. -/
def fetchLimit : Nat := 500

/-- The row limit of the bulk load in the earlier variant: `.limit(300)`. -/
def fetchLimitV1 : Nat := 300

/-- The successful-fetch processing shared by both bulk loads: sort the
fetched rows ascending by timestamp (the JS comparator subtracts
`getTime()` values) and attach `timestamp_wib` to each row. -/
def processInitial (toWIB : Nat → String) (rows : List SensorRow) :
    List SensorRow :=
  let sorted := rows.mergeSort (fun a b => a.timestamp ≤ b.timestamp)
  sorted.map (withWIBRow toWIB)

/-- Resolution of the bulk load against the current buffer `prev`:
`none` models `error || !data` (the buffer is left alone), `some rows`
models a successful response, which replaces the buffer wholesale. -/
def bulkLoadResolve (toWIB : Nat → String) (prev : List SensorRow)
    (res : Option (List SensorRow)) : List SensorRow :=
  match res with
  | some rows => processInitial toWIB rows
  | none => prev

/-- The React state of `DashboardPage` that the claims touch, plus a log
of the blocking alerts shown so far. -/
structure DashState where
  data : List SensorRow
  loadingData : Bool
  setpoint : Targets
  savingSetpoint : Bool
  demoBase : Targets
  alerts : List String
deriving Repr, DecidableEq

/-- The `useState` initial values of the main variant: empty buffer,
loading flag set, hard-coded default targets 25 / 60 / 300 / 50 for both
`setpoint` and `demoBase`, saving flag clear, no alert shown yet. -/
def initialDashState : DashState :=
  { data := []
    loadingData := true
    setpoint := { suhu := 25, kelembapan := 60, cahaya := 300, suara := 50 }
    savingSetpoint := false
    demoBase := { suhu := 25, kelembapan := 60, cahaya := 300, suara := 50 }
    alerts := [] }

/-- Field-by-field defaulting applied to a fetched setpoint row:
`data.suhu_target ?? 25` and so on (identical in both variants). -/
def applySetpointRow (row : SetpointRow) : Targets :=
  { suhu := row.suhu_target.getD 25
    kelembapan := row.kelembapan_target.getD 60
    cahaya := row.cahaya_target.getD 300
    suara := row.suara_target.getD 50 }

/-- Resolution of the setpoint load of the main variant:
`if (error || !data) return;` keeps the state unchanged; otherwise the
targets are set from the row (and `demoBase` too when `DEMO_MODE`). -/
def loadSetpointResolve (s : DashState) (err : Bool)
    (res : Option SetpointRow) : DashState :=
  if err then s
  else
    match res with
    | none => s
    | some row =>
        let sp := applySetpointRow row
        let s1 := { s with setpoint := sp }
        if DEMO_MODE then { s1 with demoBase := sp } else s1

/-- Resolution of the setpoint load of the earlier variant: only `data`
is destructured, so a request error behaves like an absent row
(`res = none`); an absent row keeps the state unchanged. -/
def loadSetpointResolveV1 (s : DashState) (res : Option SetpointRow) :
    DashState :=
  match res with
  | none => s
  | some row => { s with setpoint := applySetpointRow row }

/-- The failure message of the main variant's save handler. -/
def saveFailureAlert : String := "Gagal menyimpan setpoint!"

/-- `handleSaveSetpoint` of the main variant, with the upsert outcome made
explicit: set the saving flag, upsert, on error show one blocking alert,
on success (with `DEMO_MODE`) refresh `demoBase`, and finally clear the
saving flag.  The handler never writes `setpoint`. -/
def handleSaveSetpoint (s : DashState) (upsertError : Bool) : DashState :=
  let s1 := { s with savingSetpoint := true }
  let s2 :=
    if upsertError then { s1 with alerts := s1.alerts ++ [saveFailureAlert] }
    else if DEMO_MODE then { s1 with demoBase := s1.setpoint }
    else s1
  { s2 with savingSetpoint := false }

/-- `handleSaveSetpoint` of the earlier variant: set the saving flag,
upsert with the result ignored entirely, clear the saving flag.  No alert
is ever shown. -/
def handleSaveSetpointV1 (s : DashState) (upsertError : Bool) : DashState :=
  let s1 := { s with savingSetpoint := true }
  let _ := upsertError
  { s1 with savingSetpoint := false }

/-- The value text of a `MetricCard`:
`value != null ? value.toFixed(1) : "--"`, with the host number formatter
`toFixed(1)` passed in abstractly. -/
def renderMetricValue (toFixed : ℚ → String) (v : Option ℚ) : String :=
  match v with
  | some x => toFixed x
  | none => "--"

/-- An asynchronous event that can reach the real-mode buffer: a pushed
INSERT row, or the resolution of the pending bulk load. -/
inductive FeedEvent where
  | push : SensorRow → FeedEvent
  | bulk : Option (List SensorRow) → FeedEvent
deriving Repr, DecidableEq

/-- Effect of one real-mode event on the buffer. -/
def feedStep (toWIB : Nat → String) (buf : List SensorRow) :
    FeedEvent → List SensorRow
  | .push r => insertHandler toWIB buf r
  | .bulk res => bulkLoadResolve toWIB buf res

/-- Buffer reached after a sequence of real-mode events. -/
def runFeed (toWIB : Nat → String) (buf : List SensorRow)
    (evs : List FeedEvent) : List SensorRow :=
  evs.foldl (feedStep toWIB) buf

/-! Concrete instances used by witnesses. -/

/-- A trivial stand-in for the host timezone formatter. -/
def toWIB0 : Nat → String := fun _ => ""

/-- A trivial stand-in for the host number formatter `toFixed(1)`. -/
def toFixed0 : ℚ → String := fun _ => ""

/-- A fixed tick environment: instant 0 and all random draws 0. -/
def env0 : Nat → Nat × RandQuad := fun _ => (0, ⟨0, 0, 0, 0⟩)

/-- The default baseline quadruple. -/
def base0 : Targets := ⟨25, 60, 300, 50⟩

/-- A sample pushed row with all four measurements absent. -/
def sampleRow : SensorRow := ⟨1, 0, none, none, none, none, none⟩

/-! Helper lemmas. -/

/-- Branch form of the INSERT handler: append the formatted row, and when
the buffer was already full drop the front element. -/
lemma insertHandler_eq (toWIB : Nat → String) (prev : List SensorRow)
    (r : SensorRow) :
    insertHandler toWIB prev r =
      if prev.length + 1 > 1000 then prev.tail ++ [withWIBRow toWIB r]
      else prev ++ [withWIBRow toWIB r] := by
  unfold insertHandler
  simp only [List.length_append, List.length_cons, List.length_nil]
  by_cases h : prev.length + 1 > 1000
  · have hne : prev ≠ [] := by
      intro hnil
      subst hnil
      simp at h
    rw [if_pos (by omega), if_pos h]
    cases prev with
    | nil => exact absurd rfl hne
    | cons p ps => rfl
  · rw [if_neg (by omega), if_neg h]

/-- C2: in real mode, the INSERT handler appends exactly one reading with
its formatted timestamp attached to the end of the buffer, preserving the
prior order of the existing entries; whenever the length after the append
exceeds 1000, exactly the oldest (front) entry is evicted, so starting
from a buffer of at most 1000 entries the handler never leaves more than
1000 entries. -/
theorem c2_insert_handler_bounded (toWIB : Nat → String)
    (prev : List SensorRow) (r : SensorRow) :
    (insertHandler toWIB prev r).getLast? = some (withWIBRow toWIB r) ∧
    insertHandler toWIB prev r =
      (if prev.length + 1 > 1000 then prev.tail ++ [withWIBRow toWIB r]
       else prev ++ [withWIBRow toWIB r]) ∧
    (insertHandler toWIB prev r).length =
      (if prev.length + 1 > 1000 then prev.length else prev.length + 1) ∧
    (prev.length ≤ 1000 → (insertHandler toWIB prev r).length ≤ 1000) := by
  have heq := insertHandler_eq toWIB prev r
  have hlen : (insertHandler toWIB prev r).length =
      (if prev.length + 1 > 1000 then prev.length else prev.length + 1) := by
    rw [heq]
    by_cases h : prev.length + 1 > 1000
    · rw [if_pos h, if_pos h]
      simp only [List.length_append, List.length_tail, List.length_cons,
        List.length_nil]
      omega
    · rw [if_neg h, if_neg h]
      simp
  refine ⟨?_, heq, hlen, ?_⟩
  · rw [heq]
    split <;> simp
  · intro hle
    rw [hlen]
    split <;> omega

/-- C2 witness: the handler applied to the empty buffer stays within the
1000-entry bound. -/
theorem c2_insert_handler_bounded_witness :
    ([] : List SensorRow).length ≤ 1000 ∧
    (insertHandler toWIB0 [] sampleRow).length ≤ 1000 :=
  ⟨by simp, (c2_insert_handler_bounded toWIB0 [] sampleRow).2.2.2 (by simp)⟩

/-- The noise helper stays within the half-width of the band when the
random draw lies in `[0, 1)` and the half-width is nonnegative. -/
lemma abs_noise_le (r range : ℚ) (h0 : 0 ≤ r) (h1 : r < 1)
    (hr : 0 ≤ range) : |noise r range| ≤ range := by
  unfold noise
  rw [abs_le]
  constructor <;> nlinarith

/-- C6: for every baseline quadruple and optional previous reading, the
demo generator returns a reading whose measurements lie within the fixed
half-widths of the baseline (temperature within 0.3, humidity within 1,
light within 5, sound within 2), whose id is the previous id plus 1 (1
when there is no previous reading, as the previous id is then taken as 0),
and whose timestamp is the current instant in raw and formatted form. -/
theorem c6_generate_demo_data_spec (toWIB : Nat → String) (now : Nat)
    (rnd : RandQuad) (base : Targets) (last : Option SensorRow)
    (h1 : 0 ≤ rnd.suhu) (h2 : rnd.suhu < 1)
    (h3 : 0 ≤ rnd.kelembapan) (h4 : rnd.kelembapan < 1)
    (h5 : 0 ≤ rnd.cahaya) (h6 : rnd.cahaya < 1)
    (h7 : 0 ≤ rnd.suara) (h8 : rnd.suara < 1) :
    (∃ v, (generateDemoData toWIB now rnd base last).suhu = some v ∧
      |v - base.suhu| ≤ 0.3) ∧
    (∃ v, (generateDemoData toWIB now rnd base last).kelembapan = some v ∧
      |v - base.kelembapan| ≤ 1) ∧
    (∃ v, (generateDemoData toWIB now rnd base last).cahaya = some v ∧
      |v - base.cahaya| ≤ 5) ∧
    (∃ v, (generateDemoData toWIB now rnd base last).suara = some v ∧
      |v - base.suara| ≤ 2) ∧
    (generateDemoData toWIB now rnd base last).id =
      (match last with | none => 0 | some l => l.id) + 1 ∧
    (generateDemoData toWIB now rnd base last).timestamp = now ∧
    (generateDemoData toWIB now rnd base last).timestamp_wib =
      some (toWIB now) := by
  refine ⟨⟨_, rfl, ?_⟩, ⟨_, rfl, ?_⟩, ⟨_, rfl, ?_⟩, ⟨_, rfl, ?_⟩, ?_, rfl, rfl⟩
  · simpa using abs_noise_le rnd.suhu 0.3 h1 h2 (by norm_num)
  · simpa using abs_noise_le rnd.kelembapan 1 h3 h4 (by norm_num)
  · simpa using abs_noise_le rnd.cahaya 5 h5 h6 (by norm_num)
  · simpa using abs_noise_le rnd.suara 2 h7 h8 (by norm_num)
  · cases last with
    | none => rfl
    | some l =>
        show jsOrInt (some l.id) 0 + 1 = l.id + 1
        unfold jsOrInt
        by_cases h : l.id = 0 <;> simp [h]

/-- C6 witness: with all four random draws equal to 0 the generated
temperature lies within 0.3 of the default baseline. -/
theorem c6_generate_demo_data_witness :
    (0 : ℚ) ≤ 0 ∧ (0 : ℚ) < 1 ∧
    (∃ v, (generateDemoData toWIB0 0 ⟨0, 0, 0, 0⟩ base0 none).suhu = some v ∧
      |v - base0.suhu| ≤ 0.3) :=
  ⟨le_refl 0, by norm_num,
    (c6_generate_demo_data_spec toWIB0 0 ⟨0, 0, 0, 0⟩ base0 none
      (by norm_num) (by norm_num) (by norm_num) (by norm_num)
      (by norm_num) (by norm_num) (by norm_num) (by norm_num)).1⟩

/-- C4 counterexample: in the earlier variant the upsert outcome is
ignored, so a failing save shows zero blocking alerts rather than exactly
one. -/
theorem c4_save_counterexample :
    (handleSaveSetpointV1 initialDashState true).alerts.length = 0 ∧
    ¬ (handleSaveSetpointV1 initialDashState true).alerts.length = 1 := by
  constructor <;> simp [handleSaveSetpointV1, initialDashState]

/-- C4 amended: in the main variant a failing upsert shows exactly one
blocking alert while a successful one shows none; in the earlier variant
no alert is ever shown; in both variants and both outcomes the four
in-memory targets are left unchanged and the saving flag settles back to
false. -/
theorem c4_save_setpoint_spec (s : DashState) (upsertError : Bool) :
    (handleSaveSetpoint s upsertError).alerts =
      s.alerts ++ (if upsertError then [saveFailureAlert] else []) ∧
    (handleSaveSetpoint s true).alerts.length = s.alerts.length + 1 ∧
    (handleSaveSetpoint s upsertError).setpoint = s.setpoint ∧
    (handleSaveSetpoint s upsertError).savingSetpoint = false ∧
    (handleSaveSetpointV1 s upsertError).alerts = s.alerts ∧
    (handleSaveSetpointV1 s upsertError).setpoint = s.setpoint ∧
    (handleSaveSetpointV1 s upsertError).savingSetpoint = false := by
  cases upsertError <;>
    simp [handleSaveSetpoint, handleSaveSetpointV1, DEMO_MODE]

/-- C5: whenever the setpoint record is absent or the request fails, the
in-memory targets remain exactly the hard-coded defaults 25 / 60 / 300 /
50 and no alert is surfaced, in both variants. -/
theorem c5_setpoint_load_failure_defaults (err : Bool)
    (res : Option SetpointRow) (h : err = true ∨ res = none) :
    (loadSetpointResolve initialDashState err res).setpoint =
      { suhu := 25, kelembapan := 60, cahaya := 300, suara := 50 } ∧
    (loadSetpointResolve initialDashState err res).alerts = [] ∧
    (loadSetpointResolveV1 initialDashState none).setpoint =
      { suhu := 25, kelembapan := 60, cahaya := 300, suara := 50 } ∧
    (loadSetpointResolveV1 initialDashState none).alerts = [] := by
  have hmain : loadSetpointResolve initialDashState err res =
      initialDashState := by
    rcases h with h | h
    · subst h
      simp [loadSetpointResolve]
    · subst h
      cases err <;> simp [loadSetpointResolve]
  rw [hmain]
  exact ⟨rfl, rfl, rfl, rfl⟩

/-- C5 witness: a failing request with an absent record keeps the default
targets. -/
theorem c5_setpoint_load_failure_witness :
    (true = true ∨ (none : Option SetpointRow) = none) ∧
    (loadSetpointResolve initialDashState true none).setpoint =
      { suhu := 25, kelembapan := 60, cahaya := 300, suara := 50 } :=
  ⟨Or.inl rfl,
    (c5_setpoint_load_failure_defaults true none (Or.inl rfl)).1⟩

/-- C10: when the stored setpoint record exists, each absent target column
is replaced by its own hard-coded default (25 / 60 / 300 / 50) while the
present columns take the stored values; the record is not rejected as a
whole, and the earlier variant applies the identical fallback. -/
theorem c10_setpoint_field_fallback (s : DashState) (row : SetpointRow) :
    ((loadSetpointResolve s false (some row)).setpoint.suhu =
      match row.suhu_target with | none => 25 | some v => v) ∧
    ((loadSetpointResolve s false (some row)).setpoint.kelembapan =
      match row.kelembapan_target with | none => 60 | some v => v) ∧
    ((loadSetpointResolve s false (some row)).setpoint.cahaya =
      match row.cahaya_target with | none => 300 | some v => v) ∧
    ((loadSetpointResolve s false (some row)).setpoint.suara =
      match row.suara_target with | none => 50 | some v => v) ∧
    (loadSetpointResolveV1 s (some row)).setpoint =
      (loadSetpointResolve s false (some row)).setpoint := by
  have hsp : (loadSetpointResolve s false (some row)).setpoint =
      applySetpointRow row := by
    simp [loadSetpointResolve, DEMO_MODE]
  refine ⟨?_, ?_, ?_, ?_, ?_⟩
  · rw [hsp]
    cases h : row.suhu_target <;> simp [applySetpointRow, h]
  · rw [hsp]
    cases h : row.kelembapan_target <;> simp [applySetpointRow, h]
  · rw [hsp]
    cases h : row.cahaya_target <;> simp [applySetpointRow, h]
  · rw [hsp]
    cases h : row.suara_target <;> simp [applySetpointRow, h]
  · rw [hsp]
    simp [loadSetpointResolveV1]

/-- C7: a missing measurement is preserved as absent along both the push
path and the bulk-load path, and the metric card renders an absent value
as the placeholder and a present value through the number formatter. -/
theorem c7_missing_values (toWIB : Nat → String) (toFixed : ℚ → String)
    (prev rows : List SensorRow) (r row : SensorRow) (hmem : row ∈ rows) :
    (insertHandler toWIB prev r).getLast?.map SensorRow.suhu = some r.suhu ∧
    (insertHandler toWIB prev r).getLast?.map SensorRow.kelembapan =
      some r.kelembapan ∧
    (insertHandler toWIB prev r).getLast?.map SensorRow.cahaya =
      some r.cahaya ∧
    (insertHandler toWIB prev r).getLast?.map SensorRow.suara =
      some r.suara ∧
    (∃ row2 ∈ processInitial toWIB rows,
      row2.suhu = row.suhu ∧ row2.kelembapan = row.kelembapan ∧
      row2.cahaya = row.cahaya ∧ row2.suara = row.suara ∧
      row2.timestamp = row.timestamp) ∧
    renderMetricValue toFixed none = "--" ∧
    (∀ v, renderMetricValue toFixed (some v) = toFixed v) := by
  have hlast : (insertHandler toWIB prev r).getLast? =
      some (withWIBRow toWIB r) := by
    rw [insertHandler_eq]
    split <;> simp
  have hmem2 : row ∈ rows.mergeSort (fun a b => a.timestamp ≤ b.timestamp) :=
    ((List.mergeSort_perm rows _).mem_iff).2 hmem
  refine ⟨?_, ?_, ?_, ?_, ?_, rfl, fun v => rfl⟩
  · rw [hlast]; rfl
  · rw [hlast]; rfl
  · rw [hlast]; rfl
  · rw [hlast]; rfl
  · refine ⟨withWIBRow toWIB row, ?_, rfl, rfl, rfl, rfl, rfl⟩
    simp only [processInitial]
    exact List.mem_map_of_mem (withWIBRow toWIB) hmem2

/-- C7 witness: a pushed reading with all measurements absent keeps its
absent temperature at the end of the buffer. -/
theorem c7_missing_values_witness :
    sampleRow ∈ [sampleRow] ∧
    (insertHandler toWIB0 [] sampleRow).getLast?.map SensorRow.suhu =
      some sampleRow.suhu :=
  ⟨by simp,
    (c7_missing_values toWIB0 toFixed0 [] [sampleRow] sampleRow sampleRow
      (by simp)).1⟩

/-- C8: a push event delivered while the bulk load is pending is appended
to whatever the buffer currently holds, a successful bulk resolution
replaces the buffer wholesale regardless of its current contents, and in
particular a pushed reading followed by a bulk resolution carrying no rows
leaves a buffer in which that pushed reading no longer exists. -/
theorem c8_bulk_push_race (toWIB : Nat → String) (buf : List SensorRow)
    (r : SensorRow) (rows : List SensorRow) (h : buf.length ≤ 999) :
    feedStep toWIB buf (.push r) = buf ++ [withWIBRow toWIB r] ∧
    feedStep toWIB buf (.bulk (some rows)) = processInitial toWIB rows ∧
    runFeed toWIB buf [.push r, .bulk (some [])] = [] ∧
    withWIBRow toWIB r ∉ runFeed toWIB buf [.push r, .bulk (some [])] := by
  have h3 : runFeed toWIB buf [.push r, .bulk (some [])] = [] := by
    simp [runFeed, feedStep, bulkLoadResolve, processInitial]
  refine ⟨?_, rfl, h3, ?_⟩
  · show insertHandler toWIB buf r = buf ++ [withWIBRow toWIB r]
    rw [insertHandler_eq]
    rw [if_neg (by omega)]
  · rw [h3]
    simp

/-- C8 witness: starting from the empty buffer, the pushed reading does
not survive the later bulk resolution. -/
theorem c8_bulk_push_race_witness :
    ([] : List SensorRow).length ≤ 999 ∧
    runFeed toWIB0 [] [.push sampleRow, .bulk (some [])] = [] :=
  ⟨by simp,
    (c8_bulk_push_race toWIB0 [] sampleRow [] (by simp)).2.2.1⟩

/-- Length preservation of the bulk-load processing. -/
lemma processInitial_length (toWIB : Nat → String) (rows : List SensorRow) :
    (processInitial toWIB rows).length = rows.length := by
  simp [processInitial, List.length_mergeSort]

/-- Sortedness of the bulk-load processing: the resulting rows are
pairwise nondecreasing in timestamp. -/
lemma processInitial_sorted (toWIB : Nat → String) (rows : List SensorRow) :
    (processInitial toWIB rows).Pairwise
      (fun a b => a.timestamp ≤ b.timestamp) := by
  have htrans : ∀ a b c : SensorRow,
      (decide (a.timestamp ≤ b.timestamp)) = true →
      (decide (b.timestamp ≤ c.timestamp)) = true →
      (decide (a.timestamp ≤ c.timestamp)) = true := by
    intro a b c hab hbc
    simp at hab hbc ⊢
    omega
  have htotal : ∀ a b : SensorRow,
      ((decide (a.timestamp ≤ b.timestamp)) ||
        (decide (b.timestamp ≤ a.timestamp))) = true := by
    intro a b
    simp
    omega
  have hs := List.sorted_mergeSort htrans htotal rows
  simp only [processInitial]
  rw [List.pairwise_map]
  refine hs.imp ?_
  intro a b hab
  simpa [withWIBRow] using hab

/-- C3 counterexample: the earlier variant's bulk load requests 300 rows,
not 500. -/
theorem c3_limit_counterexample : fetchLimitV1 = 300 ∧ fetchLimitV1 ≠ 500 := by
  constructor <;> decide

/-- C3 amended: the main variant's bulk load requests the most recent 500
rows (the earlier variant requests 300); a successful response replaces
the buffer wholesale with the fetched rows re-sorted ascending by
timestamp and carrying formatted timestamps, and 500 fetched rows yield a
buffer of length 500 that is sorted ascending by timestamp. -/
theorem c3_bulk_load_spec (toWIB : Nat → String)
    (prev rows : List SensorRow) (h : rows.length = 500) :
    fetchLimit = 500 ∧
    fetchLimitV1 = 300 ∧
    bulkLoadResolve toWIB prev (some rows) = processInitial toWIB rows ∧
    (processInitial toWIB rows).length = 500 ∧
    (processInitial toWIB rows).Pairwise
      (fun a b => a.timestamp ≤ b.timestamp) := by
  refine ⟨rfl, rfl, rfl, ?_, processInitial_sorted toWIB rows⟩
  rw [processInitial_length, h]

/-- A bulk-load response of 500 rows with distinct increasing timestamps,
used as a witness input. -/
def witnessRows : List SensorRow :=
  (List.range 500).map (fun i => ⟨0, i, none, none, none, none, none⟩)

/-- C3 witness: processing the 500-row witness response yields a buffer of
length 500. -/
theorem c3_bulk_load_witness :
    witnessRows.length = 500 ∧
    (processInitial toWIB0 witnessRows).length = 500 :=
  ⟨by simp [witnessRows],
    (c3_bulk_load_spec toWIB0 [] witnessRows (by simp [witnessRows])).2.2.2.1⟩

/-- Branch form of one DEMO-mode tick. -/
lemma demoTick_eq (toWIB : Nat → String) (now : Nat) (rnd : RandQuad)
    (base : Targets) (prev : List SensorRow) :
    demoTick toWIB now rnd base prev =
      (if 500 ≤ prev.length then prev.drop (prev.length - 499) else prev) ++
        [generateDemoData toWIB now rnd base prev.getLast?] := rfl

/-- The DEMO-mode buffer holds `min n 500` readings after `n` ticks. -/
lemma length_runDemo (toWIB : Nat → String) (env : Nat → Nat × RandQuad)
    (base : Targets) (n : Nat) :
    (runDemo toWIB env base n).length = min n 500 := by
  induction n with
  | zero => simp [runDemo]
  | succ n ih =>
      show (demoTick toWIB (env n).1 (env n).2 base
        (runDemo toWIB env base n)).length = min (n + 1) 500
      rw [demoTick_eq]
      by_cases h : 500 ≤ (runDemo toWIB env base n).length
      · rw [if_pos h]
        simp only [List.length_append, List.length_drop, List.length_cons,
          List.length_nil]
        omega
      · rw [if_neg h]
        simp only [List.length_append, List.length_cons, List.length_nil]
        omega

/-- The generation history grows by one sample per tick. -/
lemma demoHistory_succ (toWIB : Nat → String) (env : Nat → Nat × RandQuad)
    (base : Targets) (n : Nat) :
    demoHistory toWIB env base (n + 1) =
      demoHistory toWIB env base n ++ [demoSample toWIB env base n] := by
  simp [demoHistory, List.range_succ]

/-- The generation history holds one sample per elapsed tick. -/
lemma length_demoHistory (toWIB : Nat → String) (env : Nat → Nat × RandQuad)
    (base : Targets) (n : Nat) :
    (demoHistory toWIB env base n).length = n := by
  simp [demoHistory]

/-- The DEMO-mode buffer after `n` ticks is exactly the generation history
with everything but the last 500 samples dropped from the front. -/
lemma runDemo_eq_drop (toWIB : Nat → String) (env : Nat → Nat × RandQuad)
    (base : Targets) (n : Nat) :
    runDemo toWIB env base n =
      (demoHistory toWIB env base n).drop (n - 500) := by
  induction n with
  | zero => simp [runDemo, demoHistory]
  | succ n ih =>
      have hlen := length_runDemo toWIB env base n
      have hH := length_demoHistory toWIB env base n
      show demoTick toWIB (env n).1 (env n).2 base (runDemo toWIB env base n)
        = _
      rw [demoTick_eq, demoHistory_succ]
      simp only [demoSample]
      by_cases h : 500 ≤ (runDemo toWIB env base n).length
      · have hn : 500 ≤ n := by omega
        have hlen500 : (runDemo toWIB env base n).length = 500 := by omega
        rw [if_pos h]
        rw [List.drop_append_of_le_length (by omega)]
        rw [hlen500, show (500 : Nat) - 499 = 1 from rfl, ih, List.drop_drop]
        have hidx : n - 500 + 1 = n + 1 - 500 := by omega
        rw [hidx]
      · have hn : n < 500 := by omega
        have h0 : n - 500 = 0 := by omega
        have h1 : n + 1 - 500 = 0 := by omega
        rw [if_neg h, h1, List.drop_zero, ih, h0, List.drop_zero]

/-- C1: in DEMO mode each tick appends exactly one generated reading,
trimming the buffer front down to 499 entries first whenever the append
would push it past 500; consequently, for every baseline and environment
and every positive `k`, after `500 + k` ticks the buffer holds exactly 500
readings, namely the most recently generated samples in generation
order. -/
theorem c1_demo_sliding_window (toWIB : Nat → String)
    (env : Nat → Nat × RandQuad) (base : Targets) :
    (∀ now rnd prev,
      demoTick toWIB now rnd base prev =
        (if prev.length + 1 > 500 then prev.drop (prev.length - 499)
         else prev)
          ++ [generateDemoData toWIB now rnd base prev.getLast?]) ∧
    (∀ now rnd (prev : List SensorRow), prev.length = 500 →
      (prev.drop (prev.length - 499)).length = 499 ∧
      (demoTick toWIB now rnd base prev).length = 500) ∧
    (∀ k, 0 < k →
      (runDemo toWIB env base (500 + k)).length = 500 ∧
      runDemo toWIB env base (500 + k) =
        (demoHistory toWIB env base (500 + k)).drop k) := by
  refine ⟨?_, ?_, ?_⟩
  · intro now rnd prev
    rw [demoTick_eq]
    congr 1
    by_cases h : 500 ≤ prev.length
    · rw [if_pos h, if_pos (by omega)]
    · rw [if_neg h, if_neg (by omega)]
  · intro now rnd prev hp
    constructor
    · simp only [List.length_drop]
      omega
    · rw [demoTick_eq, if_pos (by omega)]
      simp only [List.length_append, List.length_drop, List.length_cons,
        List.length_nil]
      omega
  · intro k hk
    constructor
    · rw [length_runDemo]
      omega
    · have hidx : 500 + k - 500 = k := by omega
      rw [runDemo_eq_drop, hidx]

/-- C1 witness: a tick on a full 500-entry buffer keeps it at 500, and
after 501 ticks from empty the buffer holds exactly 500 readings. -/
theorem c1_demo_sliding_window_witness :
    (List.replicate 500 sampleRow).length = 500 ∧ 0 < 1 ∧
    (demoTick toWIB0 0 ⟨0, 0, 0, 0⟩ base0
      (List.replicate 500 sampleRow)).length = 500 ∧
    (runDemo toWIB0 env0 base0 (500 + 1)).length = 500 :=
  ⟨by rw [List.length_replicate], Nat.one_pos,
    ((c1_demo_sliding_window toWIB0 env0 base0).2.1 0 ⟨0, 0, 0, 0⟩
      (List.replicate 500 sampleRow) (by rw [List.length_replicate])).2,
    ((c1_demo_sliding_window toWIB0 env0 base0).2.2 1 Nat.one_pos).1⟩
